import Mathlib

/-!
Shallow embedding of the Building Maintenance Request System
(`src/main.py`, `src/database.py`).

Timestamps are modelled as integer seconds since the epoch (`Int`);
nullable columns as `Option`; the SQLAlchemy request table as a
`List MaintenanceRequest` processed in retrieval order.  Python's
`list.sort(key=...)` is a stable merge sort, modelled by
`List.mergeSort` (also a stable merge sort) on the same key.
-/

namespace Maint

/-- `users` table of `database.py`: id, username, password_hash, role
(role is a plain string in the schema: tenant / worker / manager). -/
structure User where
  id : Nat
  username : String
  password_hash : String
  role : String
deriving DecidableEq, Repr

/-- `requests` table of `database.py`.  `created_at` has a non-null
default (`datetime.utcnow`), `resolved_at` and `assigned_worker_id`
are nullable. -/
structure MaintenanceRequest where
  id : Nat
  tenant_id : Nat
  unit_number : String
  category : String
  urgency : String
  description : String
  status : String
  created_at : Int
  resolved_at : Option Int
  assigned_worker_id : Option Nat
deriving DecidableEq, Repr

/-- Outcome of a route handler, as `main.py` can produce it:
`RedirectResponse("/")`, `RedirectResponse("/worker/queue", 303)`,
the submit success page, or an `HTTPException` (FastAPI's 403 is
raised only inside `require_role`; no handler raises a 404). -/
inductive HandlerResult where
  | redirectHome
  | redirectQueue
  | successPage
  | httpForbidden
  | httpNotFound
deriving DecidableEq, Repr

/-- Body of the `if req:` branch of `update_request` (main.py lines
226-229): set `status`, overwrite `assigned_worker_id` with the acting
worker, and when the new status is `"Completed"` set `resolved_at` to
the current time (unconditionally); otherwise `resolved_at` is left
as it was. -/
def applyStatusUpdate (now : Int) (workerId : Nat) (newStatus : String)
    (r : MaintenanceRequest) : MaintenanceRequest :=
  { r with
    status := newStatus
    assigned_worker_id := some workerId
    resolved_at := if newStatus = "Completed" then some now else r.resolved_at }

/-- `db.query(...).filter(cond).first()` followed by a mutation of the
returned row: apply `f` to the first element satisfying `p`; if no
element matches, the list is unchanged (the code's `if req:` guard). -/
def updateFirst (p : MaintenanceRequest → Bool)
    (f : MaintenanceRequest → MaintenanceRequest) :
    List MaintenanceRequest → List MaintenanceRequest
  | [] => []
  | r :: rs => if p r then f r :: rs else r :: updateFirst p f rs

/-- `update_request` (main.py lines 214-232).  A missing or non-worker
user is redirected home; otherwise the first request with the given id
(if any) is updated via `applyStatusUpdate` and the handler redirects
to the queue — also when no request matched. -/
def update_request (db : List MaintenanceRequest) (req_id : Nat)
    (status : String) (user : Option User) (now : Int) :
    List MaintenanceRequest × HandlerResult :=
  match user with
  | none => (db, .redirectHome)
  | some u =>
    if u.role ≠ "worker" then (db, .redirectHome)
    else
      (updateFirst (fun r => r.id == req_id) (applyStatusUpdate now u.id status) db,
       .redirectQueue)

/-- `submit_request` (main.py lines 148-177).  A missing or non-tenant
user is redirected home; otherwise a new request with the given fields
and status `"Pending"` is appended (id from the autoincrement column,
`created_at` from its `utcnow` default, `resolved_at` and
`assigned_worker_id` from their null defaults) and the success page is
rendered.  No field of the submission is validated. -/
def submit_request (db : List MaintenanceRequest) (nextId : Nat)
    (unit_number category urgency description : String)
    (user : Option User) (now : Int) :
    List MaintenanceRequest × HandlerResult :=
  match user with
  | none => (db, .redirectHome)
  | some u =>
    if u.role ≠ "tenant" then (db, .redirectHome)
    else
      (db ++ [{ id := nextId
                tenant_id := u.id
                unit_number := unit_number
                category := category
                urgency := urgency
                description := description
                status := "Pending"
                created_at := now
                resolved_at := none
                assigned_worker_id := none }],
       .successPage)

/-- `urgency_order.get(x.urgency, 4)` with
`urgency_order = {"Emergency": 0, "High": 1, "Medium": 2, "Low": 3}`
(main.py line 203). -/
def urgency_rank (u : String) : Nat :=
  if u = "Emergency" then 0
  else if u = "High" then 1
  else if u = "Medium" then 2
  else if u = "Low" then 3
  else 4

/-- Comparator induced by the sort key of main.py line 204. -/
def rankLE (a b : MaintenanceRequest) : Bool :=
  urgency_rank a.urgency ≤ urgency_rank b.urgency

/-- `work_queue` (main.py lines 200-204): filter out Completed
requests, then stable-sort by urgency rank. -/
def work_queue (db : List MaintenanceRequest) : List MaintenanceRequest :=
  List.mergeSort (db.filter (fun r => r.status != "Completed")) rankLE

/-- The `total_time` / `count_time` accumulation loop of `dashboard`
(main.py lines 248-254).  `r.created_at` is modelled non-null (it has
a non-null default), so the Python truthiness test
`if r.resolved_at and r.created_at` reduces to `resolved_at` being
set; the delta is `total_seconds() / 3600`, exact over ℚ. -/
def resolutionTotals (l : List MaintenanceRequest) : ℚ × Nat :=
  l.foldl
    (fun acc r =>
      match r.resolved_at with
      | some t => (acc.1 + ((t - r.created_at : ℤ) : ℚ) / 3600, acc.2 + 1)
      | none => acc)
    (0, 0)

/-- Rounding of a rational to the nearest integer with ties to even —
the semantics of Python's built-in `round` (banker's rounding).  For
non-ties this agrees with Mathlib's `round` (nearest integer). -/
def roundHalfEven (q : ℚ) : ℤ :=
  if q - ⌊q⌋ = 1 / 2 then (if Even ⌊q⌋ then ⌊q⌋ else ⌊q⌋ + 1)
  else round q

/-- Python's `round(x, 1)`: correctly-rounded to one decimal digit
with ties to even, modelled exactly over ℚ (exact whenever the float
arithmetic of the source is exact, as at every input used below). -/
def pyRound1 (q : ℚ) : ℚ := (roundHalfEven (q * 10) : ℚ) / 10

/-- The context computed by the `dashboard` route (main.py lines
240-258): open / completed / emergency-open counts, average resolution
time, and the ten most recently created requests. -/
structure Dashboard where
  open_requests : Nat
  completed_count : Nat
  emergency_count : Nat
  avg_resolution_time : ℚ
  recent_requests : List MaintenanceRequest
deriving DecidableEq, Repr

/-- `dashboard` (main.py lines 240-258).  `order_by(created_at.desc())`
is modelled as a stable sort by descending `created_at`; only its
behaviour on the empty store is used by the claims. -/
def dashboard (db : List MaintenanceRequest) : Dashboard :=
  let completed_requests := db.filter (fun r => r.status == "Completed")
  let totals := resolutionTotals completed_requests
  { open_requests := (db.filter (fun r => r.status != "Completed")).length
    completed_count := completed_requests.length
    emergency_count :=
      (db.filter (fun r => r.urgency == "Emergency" && r.status != "Completed")).length
    avg_resolution_time :=
      if totals.2 > 0 then pyRound1 (totals.1 / (totals.2 : ℚ)) else 0
    recent_requests :=
      (List.mergeSort db (fun a b => decide (b.created_at ≤ a.created_at))).take 10 }

/-- Modelled from the spec: rounding to one decimal place with
"standard round-half-up semantics" (§4.4), i.e. Mathlib's `round`
(`⌊x + 1/2⌋`) applied at one decimal digit.  Used only to compare the
spec's stated rounding mode against the code's. -/
def specRound1HalfUp (q : ℚ) : ℚ := (round (q * 10) : ℚ) / 10

/-- Modelled from the spec (§4.4): the list of resolution durations in
hours, `(resolved_at − created_at)`, over all Completed requests with
both timestamps set. -/
def completedDeltas (db : List MaintenanceRequest) : List ℚ :=
  (db.filter (fun r => r.status == "Completed")).filterMap
    (fun r => r.resolved_at.map (fun t => ((t - r.created_at : ℤ) : ℚ) / 3600))

/-- Modelled from the spec (§4.4): `avgResolutionHours` as the spec
states it — the mean of `completedDeltas`, rounded half-up to one
decimal, and exactly 0 when no such request exists. -/
def specAvgResolutionHours (db : List MaintenanceRequest) : ℚ :=
  if (completedDeltas db).length > 0 then
    specRound1HalfUp ((completedDeltas db).sum / ((completedDeltas db).length : ℚ))
  else 0

/-- The invariant of spec §3: `resolved_at` is non-null iff
`status == Completed`. -/
def resolvedIffCompleted (r : MaintenanceRequest) : Prop :=
  r.resolved_at ≠ none ↔ r.status = "Completed"

instance (r : MaintenanceRequest) : Decidable (resolvedIffCompleted r) := by
  unfold resolvedIffCompleted
  infer_instance

-- Concrete fixtures used by counterexamples and witnesses.

/-- A worker identity (id 2). -/
def workerUser : User := ⟨2, "worker", "h", "worker"⟩

/-- A tenant identity (id 1). -/
def tenantUser : User := ⟨1, "tenant", "h", "tenant"⟩

/-- A Pending request, id 1, not yet resolved. -/
def reqPending : MaintenanceRequest :=
  ⟨1, 1, "101", "Plumbing", "High", "leak", "Pending", 0, none, none⟩

/-- A Completed request, id 1, resolved at time 5. -/
def reqDone : MaintenanceRequest :=
  ⟨1, 1, "102", "HVAC", "Low", "ac", "Completed", 0, some 5, some 2⟩

/-- A Completed request resolved 900 seconds (a quarter hour) after
creation. -/
def reqQuick : MaintenanceRequest :=
  ⟨1, 1, "103", "General", "Medium", "door", "Completed", 0, some 900, none⟩

-- Helper lemmas about updateFirst.

theorem updateFirst_of_forall_false {p f} :
    ∀ l : List MaintenanceRequest, (∀ r ∈ l, p r = false) →
      updateFirst p f l = l
  | [], _ => rfl
  | r :: rs, h => by
    have hr : p r = false := h r (List.mem_cons_self r rs)
    simp only [updateFirst, hr, Bool.false_eq_true, if_false]
    exact congrArg (r :: ·) (updateFirst_of_forall_false rs fun x hx => h x (List.mem_cons_of_mem r hx))

theorem updateFirst_append_first {p f} (pre post : List MaintenanceRequest)
    (r : MaintenanceRequest) (hpre : ∀ x ∈ pre, p x = false) (hr : p r = true) :
    updateFirst p f (pre ++ r :: post) = pre ++ f r :: post := by
  induction pre with
  | nil => simp [updateFirst, hr]
  | cons x xs ih =>
    have hx : p x = false := hpre x (List.mem_cons_self x xs)
    simp only [List.cons_append, updateFirst, hx, Bool.false_eq_true, if_false]
    exact congrArg (x :: ·) (ih fun y hy => hpre y (List.mem_cons_of_mem x hy))

theorem mem_updateFirst {p f} {x : MaintenanceRequest}
    {l : List MaintenanceRequest} (h : x ∈ updateFirst p f l) :
    x ∈ l ∨ ∃ y ∈ l, x = f y := by
  induction l with
  | nil => simp [updateFirst] at h
  | cons r rs ih =>
    unfold updateFirst at h
    split at h
    · rcases List.mem_cons.mp h with h | h
      · exact Or.inr ⟨r, List.mem_cons_self r rs, h⟩
      · exact Or.inl (List.mem_cons_of_mem r h)
    · rcases List.mem_cons.mp h with h | h
      · exact Or.inl (h ▸ List.mem_cons_self r rs)
      · rcases ih h with h' | ⟨y, hy, hxy⟩
        · exact Or.inl (List.mem_cons_of_mem r h')
        · exact Or.inr ⟨y, List.mem_cons_of_mem r hy, hxy⟩

theorem update_request_worker (db : List MaintenanceRequest) (id : Nat)
    (s : String) (now : Int) (u : User) (hw : u.role = "worker") :
    update_request db id s (some u) now =
      (updateFirst (fun r => r.id == id) (applyStatusUpdate now u.id s) db,
       .redirectQueue) := by
  simp [update_request, hw]

/-- C1 counterexample: a worker moving a Completed request (whose
`resolved_at` is set) back to In Progress leaves `resolved_at` set
while the status is no longer Completed, so the iff-invariant fails
after this `applyUpdate` transition path. -/
theorem C1_counterexample :
    resolvedIffCompleted reqDone ∧
    ¬ (∀ r ∈ (update_request [reqDone] 1 "In Progress" (some workerUser) 200).1,
        resolvedIffCompleted r) := by decide

/-- C1 (amended): after every `applyUpdate`, every request still
satisfies the forward direction of the invariant — if its status is
Completed then `resolved_at` is non-null.  The reverse direction is
not preserved (see the counterexample): moving a Completed request
back leaves `resolved_at` set while the status is not Completed. -/
theorem C1_amended (db : List MaintenanceRequest) (id : Nat) (s : String)
    (user : Option User) (now : Int)
    (h : ∀ r ∈ db, r.status = "Completed" → r.resolved_at ≠ none) :
    ∀ r ∈ (update_request db id s user now).1,
      r.status = "Completed" → r.resolved_at ≠ none := by
  intro r hr
  match user with
  | none => exact h r hr
  | some u =>
    by_cases hw : u.role = "worker"
    · rw [update_request_worker db id s now u hw] at hr
      rcases mem_updateFirst hr with hmem | ⟨y, hy, hxy⟩
      · exact h r hmem
      · subst hxy
        intro hs
        simp only [applyStatusUpdate] at hs ⊢
        by_cases hc : s = "Completed"
        · simp [hc]
        · exact absurd hs hc
    · simp only [update_request, if_pos hw] at hr
      exact h r hr

/-- C1 witness: completing a Pending request yields a request whose
`resolved_at` is set. -/
theorem C1_witness :
    (applyStatusUpdate 50 2 "Completed" reqPending).resolved_at ≠ none :=
  C1_amended [reqPending] 1 "Completed" (some workerUser) 50 (by decide)
    (applyStatusUpdate 50 2 "Completed" reqPending) (by decide) (by decide)

/-- C2 counterexample: `reqDone` is already Completed and already
resolved at time 5, so a worker re-marking it Completed at time 10 is
exactly a repeated Completed update — and it overwrites the
already-set `resolved_at` with the new current time, contradicting
"sets resolved_at ... exactly when ... it was not already set". -/
theorem C2_counterexample :
    reqDone.status = "Completed" ∧
    reqDone.resolved_at = some 5 ∧
    update_request [reqDone] 1 "Completed" (some workerUser) 10 =
      ([{ reqDone with
            status := "Completed"
            assigned_worker_id := some 2
            resolved_at := some 10 }],
       HandlerResult.redirectQueue) ∧
    some (10 : Int) ≠ some 5 := by decide

/-- C2 (amended): a successful `applyUpdate` by a worker on an
existing request sets the status to the new status, sets
`assigned_worker_id` to the acting worker, sets `resolved_at` to the
current time whenever the new status is Completed — also when it was
already set — leaves it unchanged otherwise, and never sets it to
null. -/
theorem C2_amended (pre post : List MaintenanceRequest)
    (r : MaintenanceRequest) (u : User) (id : Nat) (s : String) (now : Int)
    (hw : u.role = "worker") (hpre : ∀ x ∈ pre, (x.id == id) = false)
    (hr : (r.id == id) = true) :
    update_request (pre ++ r :: post) id s (some u) now =
      (pre ++ { r with
          status := s
          assigned_worker_id := some u.id
          resolved_at := if s = "Completed" then some now else r.resolved_at } :: post,
       .redirectQueue) ∧
    (r.resolved_at ≠ none →
      (if s = "Completed" then some now else r.resolved_at) ≠ none) := by
  constructor
  · rw [update_request_worker (pre ++ r :: post) id s now u hw,
      updateFirst_append_first pre post r hpre hr]
    rfl
  · intro hne
    by_cases hc : s = "Completed"
    · simp [hc]
    · simpa [hc] using hne

/-- C2 witness: the amended update equation at a concrete store. -/
theorem C2_witness :
    update_request ([] ++ reqDone :: []) 1 "Completed" (some workerUser) 10 =
      ([] ++ { reqDone with
          status := "Completed"
          assigned_worker_id := some 2
          resolved_at :=
            if "Completed" = "Completed" then some 10 else reqDone.resolved_at } :: [],
       .redirectQueue) :=
  (C2_amended [] [] reqDone workerUser 1 "Completed" 10 rfl (by decide) (by decide)).1

/-- C3 counterexample: a worker updating a Pending request to the
unrecognized status "Bogus" is not rejected: the handler redirects to
the queue as on success and the request's status becomes "Bogus" — no
InvalidTransition failure and the request is changed. -/
theorem C3_counterexample :
    reqPending.status = "Pending" ∧
    (update_request [reqPending] 1 "Bogus" (some workerUser) 50).1.map
        (fun x => x.status) = ["Bogus"] ∧
    (update_request [reqPending] 1 "Bogus" (some workerUser) 50).2 =
      HandlerResult.redirectQueue := by decide

/-- C3 (amended): `applyUpdate` performs no transition validation at
all — for a worker and an existing request, every new-status string
(recognized or not) and every current status (Completed included)
leads to the success redirect with the new status written verbatim. -/
theorem C3_amended (pre post : List MaintenanceRequest)
    (r : MaintenanceRequest) (u : User) (id : Nat) (s : String) (now : Int)
    (hw : u.role = "worker") (hpre : ∀ x ∈ pre, (x.id == id) = false)
    (hr : (r.id == id) = true) :
    (update_request (pre ++ r :: post) id s (some u) now).2 =
      HandlerResult.redirectQueue ∧
    (update_request (pre ++ r :: post) id s (some u) now).1.map
        (fun x => x.status) =
      pre.map (fun x => x.status) ++ s :: post.map (fun x => x.status) := by
  rw [update_request_worker (pre ++ r :: post) id s now u hw]
  refine ⟨rfl, ?_⟩
  rw [updateFirst_append_first pre post r hpre hr]
  simp [applyStatusUpdate]

/-- C3 witness: updating a Completed request to In Progress succeeds
(no InvalidTransition) and rewrites the status. -/
theorem C3_witness :
    (update_request ([] ++ reqDone :: []) 1 "In Progress" (some workerUser) 99).2 =
      HandlerResult.redirectQueue ∧
    (update_request ([] ++ reqDone :: []) 1 "In Progress" (some workerUser) 99).1.map
        (fun x => x.status) =
      ([] : List MaintenanceRequest).map (fun x => x.status) ++
        "In Progress" :: ([] : List MaintenanceRequest).map (fun x => x.status) :=
  C3_amended [] [] reqDone workerUser 1 "In Progress" 99 rfl (by decide) (by decide)

/-- C4 counterexample: a worker updating the nonexistent id 99 gets
the normal queue redirect — indistinguishable from success and not an
HTTP 404 — with the store unchanged. -/
theorem C4_counterexample :
    update_request [reqPending] 99 "Completed" (some workerUser) 50 =
      ([reqPending], .redirectQueue) ∧
    HandlerResult.redirectQueue ≠ HandlerResult.httpNotFound := by decide

/-- C4 (amended): `applyUpdate` on a requestId matching no request is
a silent no-op: no record is modified and the handler returns the
normal queue redirect instead of a NotFound error. -/
theorem C4_amended (db : List MaintenanceRequest) (id : Nat) (s : String)
    (now : Int) (u : User) (hw : u.role = "worker")
    (h : ∀ r ∈ db, (r.id == id) = false) :
    update_request db id s (some u) now = (db, .redirectQueue) := by
  rw [update_request_worker db id s now u hw, updateFirst_of_forall_false db h]

/-- C4 witness: the silent no-op at a concrete store. -/
theorem C4_witness :
    update_request [reqDone] 7 "In Progress" (some workerUser) 3 =
      ([reqDone], .redirectQueue) :=
  C4_amended [reqDone] 7 "In Progress" 3 workerUser rfl (by decide)

/-- C5 counterexample: a tenant submission with an empty description
is not rejected: one record is created, the success page is returned,
and the stored description is the empty string. -/
theorem C5_counterexample :
    (submit_request [] 1 "101" "Plumbing" "High" "" (some tenantUser) 0).1.length = 1 ∧
    (submit_request [] 1 "101" "Plumbing" "High" "" (some tenantUser) 0).2 =
      HandlerResult.successPage ∧
    (submit_request [] 1 "101" "Plumbing" "High" "" (some tenantUser) 0).1.map
        (fun r => r.description) = [""] := by decide

/-- C5 (amended): `submit` by a tenant performs no field validation:
for every unitNumber / category / urgency / description — empty or
outside the recognized sets included — it appends exactly one new
Pending record carrying the given fields verbatim and returns the
success page; no ValidationError path exists. -/
theorem C5_amended (db : List MaintenanceRequest) (nid : Nat)
    (un cat urg desc : String) (u : User) (now : Int)
    (ht : u.role = "tenant") :
    submit_request db nid un cat urg desc (some u) now =
      (db ++ [{ id := nid
                tenant_id := u.id
                unit_number := un
                category := cat
                urgency := urg
                description := desc
                status := "Pending"
                created_at := now
                resolved_at := none
                assigned_worker_id := none }],
       .successPage) := by
  simp [submit_request, ht]

/-- C5 witness: a submission with every text field empty still
creates the record. -/
theorem C5_witness :
    submit_request [] 1 "" "" "" "" (some tenantUser) 0 =
      ([] ++ [{ id := 1
                tenant_id := tenantUser.id
                unit_number := ""
                category := ""
                urgency := ""
                description := ""
                status := "Pending"
                created_at := 0
                resolved_at := none
                assigned_worker_id := none }],
       .successPage) :=
  C5_amended [] 1 "" "" "" "" tenantUser 0 rfl

/-- C9 counterexample: `applyUpdate` by a tenant identity returns the
home redirect — not an HTTP 403 Forbidden — and leaves the store
unmodified. -/
theorem C9_counterexample :
    update_request [reqPending] 1 "Completed" (some tenantUser) 50 =
      ([reqPending], .redirectHome) ∧
    HandlerResult.redirectHome ≠ HandlerResult.httpForbidden := by decide

/-- C9 (amended): for every identity whose role is not worker (a null
identity included), `applyUpdate` on any requestId leaves every record
unmodified and returns a redirect to the home page rather than a
Forbidden error. -/
theorem C9_amended (db : List MaintenanceRequest) (id : Nat) (s : String)
    (now : Int) (user : Option User)
    (h : ∀ v : User, user = some v → v.role ≠ "worker") :
    update_request db id s user now = (db, .redirectHome) := by
  match user with
  | none => rfl
  | some u => simp [update_request, h u rfl]

/-- C9 witness: the rejected update at a concrete store and tenant. -/
theorem C9_witness :
    update_request [reqDone] 1 "Pending" (some tenantUser) 7 =
      ([reqDone], .redirectHome) :=
  C9_amended [reqDone] 1 "Pending" 7 (some tenantUser)
    (by intro v hv; injection hv with h2; subst h2; decide)

/-- C10: a worker update on an existing request — whatever the new
status string and the prior state, Completed included — changes only
`status`, `assigned_worker_id` and `resolved_at`: the surrounding
store and the request's identity, tenant, unit, category, urgency,
description and creation fields are unchanged, and
`assigned_worker_id` is always overwritten with the acting worker. -/
theorem C10 (pre post : List MaintenanceRequest) (r : MaintenanceRequest)
    (u : User) (id : Nat) (s : String) (now : Int)
    (hw : u.role = "worker") (hpre : ∀ x ∈ pre, (x.id == id) = false)
    (hr : (r.id == id) = true) :
    (update_request (pre ++ r :: post) id s (some u) now).1 =
      pre ++ applyStatusUpdate now u.id s r :: post ∧
    (applyStatusUpdate now u.id s r).tenant_id = r.tenant_id ∧
    (applyStatusUpdate now u.id s r).unit_number = r.unit_number ∧
    (applyStatusUpdate now u.id s r).category = r.category ∧
    (applyStatusUpdate now u.id s r).urgency = r.urgency ∧
    (applyStatusUpdate now u.id s r).description = r.description ∧
    (applyStatusUpdate now u.id s r).created_at = r.created_at ∧
    (applyStatusUpdate now u.id s r).id = r.id ∧
    (applyStatusUpdate now u.id s r).assigned_worker_id = some u.id := by
  refine ⟨?_, rfl, rfl, rfl, rfl, rfl, rfl, rfl, rfl⟩
  rw [update_request_worker (pre ++ r :: post) id s now u hw]
  exact updateFirst_append_first pre post r hpre hr

/-- C10 witness: the frame condition at a concrete Completed request
being re-marked Pending. -/
theorem C10_witness :
    (update_request ([] ++ reqDone :: []) 1 "Pending" (some workerUser) 42).1 =
      [] ++ applyStatusUpdate 42 2 "Pending" reqDone :: [] ∧
    (applyStatusUpdate 42 2 "Pending" reqDone).tenant_id = reqDone.tenant_id ∧
    (applyStatusUpdate 42 2 "Pending" reqDone).unit_number = reqDone.unit_number ∧
    (applyStatusUpdate 42 2 "Pending" reqDone).category = reqDone.category ∧
    (applyStatusUpdate 42 2 "Pending" reqDone).urgency = reqDone.urgency ∧
    (applyStatusUpdate 42 2 "Pending" reqDone).description = reqDone.description ∧
    (applyStatusUpdate 42 2 "Pending" reqDone).created_at = reqDone.created_at ∧
    (applyStatusUpdate 42 2 "Pending" reqDone).id = reqDone.id ∧
    (applyStatusUpdate 42 2 "Pending" reqDone).assigned_worker_id = some 2 :=
  C10 [] [] reqDone workerUser 1 "Pending" 42 rfl (by decide) (by decide)

theorem rankLE_trans : ∀ a b c : MaintenanceRequest,
    rankLE a b → rankLE b c → rankLE a c := by
  intro a b c hab hbc
  simp only [rankLE, decide_eq_true_eq] at hab hbc ⊢
  omega

theorem rankLE_total : ∀ a b : MaintenanceRequest, rankLE a b || rankLE b a := by
  intro a b
  simp only [rankLE, Bool.or_eq_true, decide_eq_true_eq]
  omega

/-- C6: `workerQueue` returns exactly the requests whose status is not
Completed, sorted by urgency rank (Emergency=0, High=1, Medium=2,
Low=3, anything else 4), and the sort is stable: for every rank the
subsequence of that rank is exactly the corresponding subsequence of
the store in retrieval order. -/
theorem C6 (db : List MaintenanceRequest) :
    (∀ r ∈ work_queue db, r.status ≠ "Completed") ∧
    (work_queue db).Pairwise
      (fun a b => urgency_rank a.urgency ≤ urgency_rank b.urgency) ∧
    (work_queue db).Perm (db.filter (fun r => r.status != "Completed")) ∧
    (∀ k : Nat, (work_queue db).filter (fun r => urgency_rank r.urgency == k) =
      (db.filter (fun r => r.status != "Completed")).filter
        (fun r => urgency_rank r.urgency == k)) ∧
    urgency_rank "Emergency" = 0 ∧ urgency_rank "High" = 1 ∧
    urgency_rank "Medium" = 2 ∧ urgency_rank "Low" = 3 ∧
    (∀ s : String, s ≠ "Emergency" → s ≠ "High" → s ≠ "Medium" → s ≠ "Low" →
      urgency_rank s = 4) := by
  refine ⟨?_, ?_, ?_, ?_, rfl, rfl, rfl, rfl, ?_⟩
  · intro r hr
    have hmem : r ∈ db.filter (fun x => x.status != "Completed") := by
      simpa [work_queue] using hr
    simpa using (List.of_mem_filter hmem)
  · have h := List.sorted_mergeSort rankLE_trans rankLE_total
      (db.filter (fun r => r.status != "Completed"))
    exact h.imp (fun hab => by simpa [rankLE] using hab)
  · exact List.mergeSort_perm _ rankLE
  · intro k
    set l := db.filter (fun r => r.status != "Completed") with hl
    set p : MaintenanceRequest → Bool := fun r => urgency_rank r.urgency == k with hp
    have hpair : (l.filter p).Pairwise (fun a b => rankLE a b) := by
      apply List.pairwise_of_forall_mem_list
      intro a ha b hb
      have hak : urgency_rank a.urgency = k := by
        simpa [hp] using (List.of_mem_filter ha)
      have hbk : urgency_rank b.urgency = k := by
        simpa [hp] using (List.of_mem_filter hb)
      simp [rankLE, hak, hbk]
    have hsub : List.Sublist (l.filter p) (List.mergeSort l rankLE) :=
      List.sublist_mergeSort rankLE_trans rankLE_total hpair (List.filter_sublist l)
    have hsub2 : List.Sublist ((l.filter p).filter p)
        ((List.mergeSort l rankLE).filter p) :=
      hsub.filter p
    have hidem : (l.filter p).filter p = l.filter p := by
      simp [List.filter_filter]
    rw [hidem] at hsub2
    have hperm : List.Perm ((List.mergeSort l rankLE).filter p) (l.filter p) :=
      (List.mergeSort_perm l rankLE).filter p
    have : l.filter p = (List.mergeSort l rankLE).filter p :=
      hsub2.eq_of_length hperm.length_eq.symm
    simpa [work_queue] using this.symm
  · intro s h1 h2 h3 h4
    simp [urgency_rank, h1, h2, h3, h4]

/-- C6 witness: the rank table at its four recognized urgencies. -/
theorem C6_witness :
    urgency_rank "Emergency" = 0 ∧ urgency_rank "High" = 1 ∧
    urgency_rank "Medium" = 2 ∧ urgency_rank "Low" = 3 :=
  ⟨(C6 []).2.2.2.2.1, (C6 []).2.2.2.2.2.1,
   (C6 []).2.2.2.2.2.2.1, (C6 []).2.2.2.2.2.2.2.1⟩

/-- C7 counterexample: one Completed request resolved 900 seconds
(a quarter hour) after creation.  The code's Python `round` (ties to
even) yields 0.2, while the spec's round-half-up yields 0.3. -/
theorem C7_counterexample :
    (dashboard [reqQuick]).avg_resolution_time = 1 / 5 ∧
    specAvgResolutionHours [reqQuick] = 3 / 10 ∧
    (1 / 5 : ℚ) ≠ 3 / 10 := by
  refine ⟨?_, ?_, by norm_num⟩
  · norm_num [dashboard, resolutionTotals, pyRound1, roundHalfEven, reqQuick]
  · norm_num [specAvgResolutionHours, completedDeltas, specRound1HalfUp,
      reqQuick, round_eq, List.filterMap_cons, Option.map]

theorem resolutionTotals_spec :
    ∀ l : List MaintenanceRequest,
      resolutionTotals l =
        ((l.filterMap (fun r => r.resolved_at.map
            (fun t => ((t - r.created_at : ℤ) : ℚ) / 3600))).sum,
         (l.filterMap (fun r => r.resolved_at.map
            (fun t => ((t - r.created_at : ℤ) : ℚ) / 3600))).length) := by
  have go : ∀ (l : List MaintenanceRequest) (a : ℚ) (c : Nat),
      l.foldl
        (fun acc r =>
          match r.resolved_at with
          | some t => (acc.1 + ((t - r.created_at : ℤ) : ℚ) / 3600, acc.2 + 1)
          | none => acc)
        (a, c) =
      (a + (l.filterMap (fun r => r.resolved_at.map
          (fun t => ((t - r.created_at : ℤ) : ℚ) / 3600))).sum,
       c + (l.filterMap (fun r => r.resolved_at.map
          (fun t => ((t - r.created_at : ℤ) : ℚ) / 3600))).length) := by
    intro l
    induction l with
    | nil => intro a c; simp
    | cons r rs ih =>
      intro a c
      cases hres : r.resolved_at with
      | none =>
        rw [List.foldl_cons]
        simp only [hres, List.filterMap_cons]
        exact ih a c
      | some t =>
        rw [List.foldl_cons]
        simp only [hres, List.filterMap_cons, Option.map_some',
          List.sum_cons, List.length_cons]
        rw [ih]
        rw [Prod.mk.injEq]
        exact ⟨by ring, by omega⟩
  intro l
  unfold resolutionTotals
  rw [go l 0 0]
  simp

/-- C7 (amended): `avgResolutionHours` equals the mean of
`(resolved_at − created_at)` in hours over all Completed requests with
both timestamps set, rounded to one decimal place with round-half-even
(Python banker's) semantics — not round-half-up — and is exactly 0
when no such request exists. -/
theorem C7_amended (db : List MaintenanceRequest) :
    (dashboard db).avg_resolution_time =
      if (completedDeltas db).length > 0 then
        ((roundHalfEven
            ((completedDeltas db).sum / ((completedDeltas db).length : ℚ) * 10) : ℤ) : ℚ)
          / 10
      else 0 := by
  show (if (resolutionTotals (db.filter (fun r => r.status == "Completed"))).2 > 0 then
      pyRound1 ((resolutionTotals (db.filter (fun r => r.status == "Completed"))).1 /
        ((resolutionTotals (db.filter (fun r => r.status == "Completed"))).2 : ℚ))
    else 0) = _
  rw [resolutionTotals_spec]
  rfl

/-- C7 witness: the explicit-zero default on the empty store. -/
theorem C7_witness :
    (dashboard []).avg_resolution_time =
      if (completedDeltas []).length > 0 then
        ((roundHalfEven
            ((completedDeltas []).sum / ((completedDeltas []).length : ℚ) * 10) : ℤ) : ℚ)
          / 10
      else 0 :=
  C7_amended []

/-- C8: the dashboard's `openCount`, `completedCount` and
`emergencyOpenCount` are the counts of requests with status not
Completed, status Completed, and urgency Emergency with status not
Completed respectively; on the empty store all three are 0 and
`recentRequests` is empty. -/
theorem C8 (db : List MaintenanceRequest) :
    (dashboard db).open_requests = db.countP (fun r => r.status != "Completed") ∧
    (dashboard db).completed_count = db.countP (fun r => r.status == "Completed") ∧
    (dashboard db).emergency_count =
      db.countP (fun r => r.urgency == "Emergency" && r.status != "Completed") ∧
    (dashboard []).open_requests = 0 ∧ (dashboard []).completed_count = 0 ∧
    (dashboard []).emergency_count = 0 ∧ (dashboard []).recent_requests = [] := by
  refine ⟨?_, ?_, ?_, ?_, ?_, ?_, ?_⟩ <;>
    simp [dashboard, List.countP_eq_length_filter, List.mergeSort_nil]

/-- C8 witness: the empty-store dashboard has no recent requests. -/
theorem C8_witness : (dashboard []).recent_requests = [] :=
  (C8 []).2.2.2.2.2.2

end Maint
